import Mathlib

/-! Verification development for the Strava activity analyzer
(`md_strava_viz_final.py`).

The Python source is shallowly embedded: each core function of the script
(field coercion, row normalization, CSV loading, categorization,
aggregation) becomes an executable Lean definition over explicit data.
Machine floating point is idealized as the rationals `ℚ` (all constants in
the script, such as the 3.6 m/s-to-km/h factor, are exact decimals);
printing is modelled by returning the printed data; Python exceptions are
modelled with `Option`/`Except`.

Rational arithmetic inside the embedding is expressed through `mkRat`-based
operations (`qadd`, `qmul`, `qdiv`, ...) so that every definition evaluates
inside the kernel; the lemmas `qadd_eq`, `qmul_eq`, `qdiv_eq`, `qsum_eq`
identify them with the field operations of `ℚ`.
-/

namespace StravaViz

/-! Section: Kernel-evaluable rational arithmetic -/

/-- Addition on `ℚ`, written through `mkRat`. -/
def qadd (a b : ℚ) : ℚ := mkRat (a.num * b.den + b.num * a.den) (a.den * b.den)

/-- Multiplication on `ℚ`, written through `mkRat`. -/
def qmul (a b : ℚ) : ℚ := mkRat (a.num * b.num) (a.den * b.den)

/-- Inverse on `ℚ` (`0⁻¹ = 0`), written through `mkRat`. -/
def qinv (b : ℚ) : ℚ :=
  if b.num < 0 then mkRat (-(b.den : Int)) b.num.natAbs
  else mkRat b.den b.num.natAbs

/-- Division on `ℚ` (division by `0` gives `0`), written through `mkRat`. -/
def qdiv (a b : ℚ) : ℚ := qmul a (qinv b)

/-- Sum of a list of rationals, as Python's `sum` (left fold from `0`). -/
def qsum (l : List ℚ) : ℚ := l.foldl qadd 0

/-! Section: String helpers modelling Python `str` methods

We work on `List Char` with structural recursion so that every operation
reduces in the kernel.  Python's `.strip()`, `.strip('"')`, `.lower()` and
`.upper()` are modelled for the ASCII data the script handles.
-/

/-- Drop the characters satisfying `p` from both ends of a list
(Python `str.strip` semantics). -/
def stripChars (p : Char → Bool) (cs : List Char) : List Char :=
  ((cs.dropWhile p).reverse.dropWhile p).reverse

/-- Python `text.strip()`: remove surrounding whitespace. -/
def pyStrip (s : String) : String :=
  String.mk (stripChars Char.isWhitespace s.data)

/-- Python `text.strip('"')`: remove all leading and trailing quote
characters. -/
def pyStripQuotes (s : String) : String :=
  String.mk (stripChars (fun c => c == '"') s.data)

/-- Python `text.lower()` (ASCII range, as in the script's data). -/
def pyLower (s : String) : String :=
  String.mk (s.data.map Char.toLower)

/-- Python `text.upper()` (ASCII range, as in the script's data). -/
def pyUpper (s : String) : String :=
  String.mk (s.data.map Char.toUpper)

/-- Initial-segment test `startsChars n h`: the list `n` is an initial segment of `h`. -/
def startsChars : List Char → List Char → Bool
  | [], _ => true
  | _ :: _, [] => false
  | a :: as, b :: bs => a == b && startsChars as bs

/-- Containment test `hasSubChars n h`: the list `n` occurs contiguously inside `h`
(Python's `n in h` on strings). -/
def hasSubChars (needle : List Char) : List Char → Bool
  | [] => startsChars needle []
  | c :: rest => startsChars needle (c :: rest) || hasSubChars needle rest

/-- Python's substring test `needle in hay`. -/
def containsSub (needle hay : String) : Bool :=
  hasSubChars needle.data hay.data

/-! Section: Field coercion (`convert_to_number`, source lines 134-144)

`parseFloat` models Python's `float(text)` on finite decimal literals:
optional sign, digits with an optional fraction part, optional exponent.
(Non-finite literals such as `"inf"`/`"nan"` and digit-separating
underscores are outside the rational model; none occur in the data the
spec describes.)
-/

/-- Numeric value of a string of decimal digits. -/
def digitsVal (ds : List Char) : Nat :=
  ds.foldl (fun n c => n * 10 + (c.toNat - 48)) 0

/-- Parse an optional exponent suffix (`e`/`E`, optional sign, digits)
and apply it to the mantissa `q`; the remainder must be empty. -/
def applyExp (q : ℚ) : List Char → Option ℚ
  | [] => some q
  | c :: rest =>
    if c == 'e' || c == 'E' then
      let (eneg, rest2) : Bool × List Char :=
        match rest with
        | '+' :: r => (false, r)
        | '-' :: r => (true, r)
        | r => (false, r)
      let eds := rest2.takeWhile Char.isDigit
      let rest3 := rest2.dropWhile Char.isDigit
      if eds.isEmpty || !rest3.isEmpty then none
      else if eneg then some (qdiv q (mkRat (10 ^ digitsVal eds) 1))
      else some (qmul q (mkRat (10 ^ digitsVal eds) 1))
    else none

/-- Model of Python `float(s)` restricted to finite decimal literals. -/
def parseFloat (s : String) : Option ℚ :=
  let (sgn, cs1) : Int × List Char :=
    match s.data with
    | '+' :: rest => (1, rest)
    | '-' :: rest => (-1, rest)
    | rest => (1, rest)
  let ip := cs1.takeWhile Char.isDigit
  let cs2 := cs1.dropWhile Char.isDigit
  match cs2 with
  | '.' :: cs3 =>
    let fp := cs3.takeWhile Char.isDigit
    let cs4 := cs3.dropWhile Char.isDigit
    if ip.isEmpty && fp.isEmpty then none
    else applyExp
      (mkRat (sgn * (digitsVal ip * 10 ^ fp.length + digitsVal fp)) (10 ^ fp.length)) cs4
  | rest =>
    if ip.isEmpty then none
    else applyExp (mkRat (sgn * digitsVal ip) 1) rest

/-- Field coercion `convert_to_number` (source lines 134-144): trim, empty gives `0`,
then `float(...)`, any parse failure gives `0`. -/
def convert_to_number (text_value : String) : ℚ :=
  if pyStrip text_value = "" then 0
  else
    match parseFloat (pyStrip text_value) with
    | some q => q
    | none => 0

/-! Section: Calendar timestamps

`parse_datetime` models `datetime.strptime(s, '%d %b %Y, %H:%M:%S')`:
a 1-2 digit day (1-31), an abbreviated month name (case-insensitive),
a 4-digit year (`datetime` requires year ≥ 1), a comma, and a 24-hour
`HH:MM:SS` time; each format-string space matches one or more whitespace
characters, no input may remain afterwards, and the day must exist in the
given month (proleptic Gregorian, as `datetime` checks).
-/

/-- A parsed `datetime` value (the fields the script uses). -/
structure PyDateTime where
  year : Nat
  month : Nat
  day : Nat
  hour : Nat
  minute : Nat
  second : Nat
deriving Repr, DecidableEq

/-- Gregorian leap-year rule. -/
def isLeapYear (y : Nat) : Bool :=
  (y % 4 == 0 && y % 100 != 0) || y % 400 == 0

/-- Number of days in month `m` of year `y`. -/
def daysInMonth (y m : Nat) : Nat :=
  if m = 2 then (if isLeapYear y then 29 else 28)
  else if m = 4 ∨ m = 6 ∨ m = 9 ∨ m = 11 then 30
  else 31

/-- Days in all years before year `y` (proleptic Gregorian). -/
def daysBeforeYear (y : Nat) : Nat :=
  let n := y - 1
  n * 365 + n / 4 - n / 100 + n / 400

/-- Days in the months of year `y` strictly before month `m`. -/
def daysBeforeMonth (y m : Nat) : Nat :=
  (((List.range (m - 1)).map (fun i => daysInMonth y (i + 1))).foldl (· + ·) 0)

/-- Python `date.toordinal()`: day count with 1 Jan of year 1 as day 1. -/
def toOrdinal (dt : PyDateTime) : Nat :=
  daysBeforeYear dt.year + daysBeforeMonth dt.year dt.month + dt.day

/-- Weekday names in Python's `%A` spelling, Monday first
(1 Jan of year 1 is a Monday). -/
def dayNames : List String :=
  ["Monday", "Tuesday", "Wednesday", "Thursday", "Friday", "Saturday", "Sunday"]

/-- Python `date.strftime('%A')`: the weekday name of a timestamp. -/
def day_of_week_name (dt : PyDateTime) : String :=
  dayNames.getD ((toOrdinal dt - 1) % 7) ""

/-- Lower-cased month abbreviations in `%b` order. -/
def monthAbbrevs : List String :=
  ["jan", "feb", "mar", "apr", "may", "jun",
   "jul", "aug", "sep", "oct", "nov", "dec"]

/-- Model of `datetime.strptime(s, '%d %b %Y, %H:%M:%S')`; `none` models
the `ValueError` the Python call raises on a malformed timestamp. -/
def parse_datetime (s : String) : Option PyDateTime :=
  let cs0 := s.data
  let dds := cs0.takeWhile Char.isDigit
  let cs1 := cs0.dropWhile Char.isDigit
  if dds.length < 1 ∨ 2 < dds.length then none else
  let dayv := digitsVal dds
  if dayv < 1 ∨ 31 < dayv then none else
  let sp1 := cs1.takeWhile Char.isWhitespace
  let cs2 := cs1.dropWhile Char.isWhitespace
  if sp1.isEmpty then none else
  let mon := cs2.takeWhile Char.isAlpha
  let cs3 := cs2.dropWhile Char.isAlpha
  match monthAbbrevs.findIdx? (fun m => m == String.mk (mon.map Char.toLower)) with
  | none => none
  | some mi =>
    let monthv := mi + 1
    let sp2 := cs3.takeWhile Char.isWhitespace
    let cs4 := cs3.dropWhile Char.isWhitespace
    if sp2.isEmpty then none else
    let yds := cs4.takeWhile Char.isDigit
    let cs5 := cs4.dropWhile Char.isDigit
    if yds.length ≠ 4 then none else
    let yearv := digitsVal yds
    if yearv < 1 then none else
    match cs5 with
    | ',' :: cs6 =>
      let sp3 := cs6.takeWhile Char.isWhitespace
      let cs7 := cs6.dropWhile Char.isWhitespace
      if sp3.isEmpty then none else
      let hds := cs7.takeWhile Char.isDigit
      let cs8 := cs7.dropWhile Char.isDigit
      if hds.length < 1 ∨ 2 < hds.length then none else
      let hourv := digitsVal hds
      if 23 < hourv then none else
      match cs8 with
      | ':' :: cs9 =>
        let mds := cs9.takeWhile Char.isDigit
        let cs10 := cs9.dropWhile Char.isDigit
        if mds.length < 1 ∨ 2 < mds.length then none else
        let minutev := digitsVal mds
        if 59 < minutev then none else
        match cs10 with
        | ':' :: cs11 =>
          let sds := cs11.takeWhile Char.isDigit
          let cs12 := cs11.dropWhile Char.isDigit
          if sds.length < 1 ∨ 2 < sds.length then none else
          let secondv := digitsVal sds
          if 59 < secondv then none else
          if ¬ cs12.isEmpty then none else
          if daysInMonth yearv monthv < dayv then none else
          some ⟨yearv, monthv, dayv, hourv, minutev, secondv⟩
        | _ => none
      | _ => none
    | _ => none

/-! Section: Rows and activities (`process_single_row`, source lines 59-129) -/

/-- A CSV row as `csv.DictReader` delivers it: column name to cell text. -/
def Row := List (String × String)

/-- Python `row.get(key, default)`. -/
def rowGet (row : Row) (key dflt : String) : String :=
  match row.find? (fun p => p.1 == key) with
  | some p => p.2
  | none => dflt

/-- A normalized activity record: the dictionary `process_single_row`
builds, with the fields the analysis functions read. -/
structure Activity where
  name : String
  type : String
  description : String
  gear : String
  distance_km : ℚ
  time_seconds : ℚ
  elapsed_time : ℚ
  elevation_low : ℚ
  elevation_high : ℚ
  max_heart_rate : ℚ
  max_speed : ℚ
  max_grade : ℚ
  avg_grade : ℚ
  avg_speed_kmh : ℚ
  max_speed_kmh : ℚ
  is_commute : Bool
  pace_min_per_km : ℚ
  date : PyDateTime
  day_of_week : String
  hour : Nat
deriving Repr, DecidableEq

/-- The activity record built from `row` once the timestamp `d` has been
parsed, following source lines 66-115 field by field (the m/s-to-km/h
factor 3.6 is `18/5`). -/
def build_activity (row : Row) (d : PyDateTime) : Activity :=
  let distance_km := convert_to_number (rowGet row "Distance_KM" "")
  let time_seconds := convert_to_number (rowGet row "Moving Time" "")
  let max_speed := convert_to_number (rowGet row "Max Speed" "")
  let speed_ms := convert_to_number (rowGet row "Average Speed" "")
  { name := rowGet row "Activity Name" ""
    type := rowGet row "Activity Type" ""
    description := rowGet row "Activity Description" ""
    gear := rowGet row "Activity Gear" ""
    distance_km := distance_km
    time_seconds := time_seconds
    elapsed_time := convert_to_number (rowGet row "Elapsed Time" "")
    elevation_low := convert_to_number (rowGet row "Elevation Low" "")
    elevation_high := convert_to_number (rowGet row "Elevation High" "")
    max_heart_rate := convert_to_number (rowGet row "Max Heart Rate" "")
    max_speed := max_speed
    max_grade := convert_to_number (rowGet row "Max Grade" "")
    avg_grade := convert_to_number (rowGet row "Average Grade" "")
    avg_speed_kmh := if 0 < speed_ms then qmul speed_ms (mkRat 18 5) else 0
    max_speed_kmh := if 0 < max_speed then qmul max_speed (mkRat 18 5) else 0
    is_commute := pyUpper (rowGet row "Commute" "") == "TRUE"
    pace_min_per_km :=
      if 0 < distance_km ∧ 0 < time_seconds then
        qdiv (qdiv time_seconds distance_km) (mkRat 60 1)
      else 0
    date := d
    day_of_week := day_of_week_name d
    hour := d.hour }

/-- Normalizer `process_single_row` (source lines 59-129): `none` models both
`return None` and the `except` handler that catches the `ValueError`
raised by `datetime.strptime` on an unparsable date. -/
def process_single_row (row : Row) : Option Activity :=
  let date_text := pyStripQuotes (pyStrip (rowGet row "Activity Date" ""))
  if date_text = "" then none
  else
    match parse_datetime date_text with
    | none => none
    | some d =>
      let activity := build_activity row d
      if activity.distance_km ≤ 0 then none
      else some activity

/-- The diagnostic messages `process_single_row` prints for a row
(source lines 117, 122 and 128): the no-date skip, the no-distance skip,
and the `except`-handler message for an unparsable date, which names the
row via `row.get('Activity Name', 'Unknown')`. -/
def process_single_row_diagnostics (row : Row) : List String :=
  let date_text := pyStripQuotes (pyStrip (rowGet row "Activity Date" ""))
  if date_text = "" then
    ["Skipping activity with no date: " ++ rowGet row "Activity Name" ""]
  else
    match parse_datetime date_text with
    | none =>
      ["Problem processing activity '" ++ rowGet row "Activity Name" "Unknown" ++ "'"]
    | some d =>
      if (build_activity row d).distance_km ≤ 0 then
        ["Skipping activity with no distance: " ++ rowGet row "Activity Name" ""]
      else []

/-- The loader loop of `read_csv_file` (source lines 44-47): process each
row in order, keeping the accepted activities. -/
def processRows : List Row → List Activity
  | [] => []
  | r :: rs =>
    match process_single_row r with
    | some a => a :: processRows rs
    | none => processRows rs

/-- How opening and reading the CSV file can fail.  `fileNotFound` is the
`FileNotFoundError` the source catches; the other constructors are open or
read failures (`PermissionError`, `IsADirectoryError`,
`UnicodeDecodeError`) that `open`/iteration can also raise. -/
inductive ReadErr
  | fileNotFound
  | permissionDenied
  | isADirectory
  | decodeFailure
deriving Repr, DecidableEq

/-- Loader `read_csv_file` (source lines 38-54) over an abstract source: the
source either yields its rows or fails with a `ReadErr`.  Only
`FileNotFoundError` is caught (returning `[]`); any other failure
propagates to the caller. -/
def read_csv_file (source : Except ReadErr (List Row)) :
    Except ReadErr (List Activity) :=
  match source with
  | .ok rows => .ok (processRows rows)
  | .error .fileNotFound => .ok []
  | .error e => .error e

/-- A sample valid row used in several concrete checks. -/
def sampleRow : Row :=
  [("Activity Name", "Morning Run"), ("Activity Type", "Run"),
   ("Distance_KM", "10"), ("Moving Time", "3000"),
   ("Activity Date", "01 Jan 2024, 12:00:00")]

/-- A row whose `Activity Date` cell is empty, used in concrete checks of
the rejection paths. -/
def badDateRow : Row :=
  [("Activity Name", "Mystery Ride"), ("Activity Type", "Ride"),
   ("Distance_KM", "12"), ("Activity Date", "")]

/-- A row whose `Elevation Low` cell holds a negative numeral, used in
concrete checks of field coercion. -/
def negElevationRow : Row :=
  [("Activity Name", "Low Run"), ("Activity Type", "Run"),
   ("Distance_KM", "5"), ("Elevation Low", "-5"),
   ("Activity Date", "02 Jan 2024, 08:30:00")]

/-- A sample activity with a positive distance and no speed, pace,
heart-rate, or grade data, used in several concrete checks. -/
def plainActivity : Activity :=
  { name := "Evening Walk", type := "Walk", description := "", gear := ""
    distance_km := 3, time_seconds := 0, elapsed_time := 0
    elevation_low := 0, elevation_high := 0, max_heart_rate := 0
    max_speed := 0, max_grade := 0, avg_grade := 0
    avg_speed_kmh := 0, max_speed_kmh := 0, is_commute := false
    pace_min_per_km := 0, date := ⟨2024, 1, 1, 18, 0, 0⟩
    day_of_week := "Monday", hour := 18 }

/-! Section: Categorizer (`separate_running_and_cycling`, source lines 148-166) -/

/-- The running test: the lower-cased type label contains `"run"`. -/
def isRunType (a : Activity) : Bool :=
  containsSub "run" (pyLower a.type)

/-- The cycling test: the lower-cased type label contains one of
`"ride"`, `"cycling"`, `"bike"`. -/
def isCycleType (a : Activity) : Bool :=
  ["ride", "cycling", "bike"].any (fun w => containsSub w (pyLower a.type))

/-- Categorizer `separate_running_and_cycling`: one pass over the activities,
appending each to the first bucket whose test matches, `other` when
neither does. -/
def separate_running_and_cycling :
    List Activity → List Activity × List Activity × List Activity
  | [] => ([], [], [])
  | a :: rest =>
    let (running, cycling, other) := separate_running_and_cycling rest
    if isRunType a then (a :: running, cycling, other)
    else if isCycleType a then (running, a :: cycling, other)
    else (running, cycling, a :: other)

/-! Section: Aggregator: summary statistics
(`calculate_advanced_stats`, source lines 169-256)

Python's `statistics.mean`, `statistics.median`, `max`, `min` over
nonempty lists of numbers.  `statistics.median` sorts the values; over
rationals any comparison sort produces the same list of values, so a
structural insertion sort stands in for Python's sort.
-/

/-- Insert `x` into a sorted list of rationals. -/
def insertSorted (x : ℚ) : List ℚ → List ℚ
  | [] => [x]
  | y :: ys => if x ≤ y then x :: y :: ys else y :: insertSorted x ys

/-- Sort a list of rationals ascending. -/
def sortQ : List ℚ → List ℚ
  | [] => []
  | x :: xs => insertSorted x (sortQ xs)

/-- Python `statistics.mean(l) if l else 0`. -/
def meanOr0 (l : List ℚ) : ℚ :=
  if l.isEmpty then 0 else qdiv (qsum l) (mkRat l.length 1)

/-- Python `statistics.median(l)` on a nonempty list: middle element of the
sorted values, or the average of the two middle elements for an even
count. -/
def pymedian (l : List ℚ) : ℚ :=
  if l.length % 2 = 1 then (sortQ l).getD (l.length / 2) 0
  else
    qdiv (qadd ((sortQ l).getD (l.length / 2 - 1) 0) ((sortQ l).getD (l.length / 2) 0))
      (mkRat 2 1)

/-- Python `statistics.median(l) if l else 0`. -/
def medianOr0 (l : List ℚ) : ℚ :=
  if l.isEmpty then 0 else pymedian l

/-- Python `max(l) if l else 0`. -/
def maxOr0 : List ℚ → ℚ
  | [] => 0
  | x :: xs => xs.foldl max x

/-- Python `min(l) if l else 0`. -/
def minOr0 : List ℚ → ℚ
  | [] => 0
  | x :: xs => xs.foldl min x

/-- The dictionary `calculate_advanced_stats` builds for a nonempty
activity list (source lines 178-216). -/
structure SummaryStats where
  count : Nat
  total_distance : ℚ
  total_time_hours : ℚ
  total_elapsed_hours : ℚ
  commute_count : Nat
  avg_distance : ℚ
  median_distance : ℚ
  max_distance : ℚ
  min_distance : ℚ
  avg_speed : ℚ
  max_speed : ℚ
  avg_max_hr : ℚ
  avg_pace : ℚ
  best_pace : ℚ
  avg_max_grade : ℚ
  steepest_grade : ℚ
  avg_grade : ℚ
deriving Repr, DecidableEq

/-- The filtered value lists of source lines 190-196 and the stats
dictionary of lines 198-216, for a nonempty activity list. -/
def advanced_stats_of (activities : List Activity) : SummaryStats :=
  let distances := (activities.filter (fun a => 0 < a.distance_km)).map Activity.distance_km
  let speeds := (activities.filter (fun a => 0 < a.avg_speed_kmh)).map Activity.avg_speed_kmh
  let max_speeds := (activities.filter (fun a => 0 < a.max_speed_kmh)).map Activity.max_speed_kmh
  let heart_rates := (activities.filter (fun a => 0 < a.max_heart_rate)).map Activity.max_heart_rate
  let paces := (activities.filter (fun a => 0 < a.pace_min_per_km)).map Activity.pace_min_per_km
  let max_grades := (activities.filter (fun a => 0 < a.max_grade)).map Activity.max_grade
  let avg_grades := (activities.filter (fun a => a.avg_grade ≠ 0)).map Activity.avg_grade
  { count := activities.length
    total_distance := qsum (activities.map Activity.distance_km)
    total_time_hours := qdiv (qsum (activities.map Activity.time_seconds)) (mkRat 3600 1)
    total_elapsed_hours := qdiv (qsum (activities.map Activity.elapsed_time)) (mkRat 3600 1)
    commute_count := activities.countP (fun a => a.is_commute)
    avg_distance := meanOr0 distances
    median_distance := medianOr0 distances
    max_distance := maxOr0 distances
    min_distance := minOr0 distances
    avg_speed := meanOr0 speeds
    max_speed := maxOr0 max_speeds
    avg_max_hr := meanOr0 heart_rates
    avg_pace := meanOr0 paces
    best_pace := minOr0 paces
    avg_max_grade := meanOr0 max_grades
    steepest_grade := maxOr0 max_grades
    avg_grade := meanOr0 avg_grades }

/-- Aggregator `calculate_advanced_stats` (source lines 169-216): an empty input
prints a message and returns the empty dictionary `{}`, modelled as
`none`; a nonempty input yields the populated stats dictionary. -/
def calculate_advanced_stats (activities : List Activity) : Option SummaryStats :=
  if activities.isEmpty then none
  else some (advanced_stats_of activities)

/-! Section: Aggregator: weekly patterns
(`analyze_weekly_patterns`, source lines 269-296)

The printed table is modelled as the list of per-day lines: the function
iterates `days_order` (Monday through Sunday) and prints, for each day,
the activity count, total distance, and `total / count if count > 0
else 0` average.
-/

/-- One printed line of the weekly-pattern table. -/
structure DayStat where
  day : String
  count : Nat
  total_distance : ℚ
  avg_distance : ℚ
deriving Repr, DecidableEq

/-- The fixed iteration order of source line 282. -/
def days_order : List String :=
  ["Monday", "Tuesday", "Wednesday", "Thursday", "Friday", "Saturday", "Sunday"]

/-- Model of `analyze_weekly_patterns` as the table it prints: the `defaultdict`
tallies give, per day, the count and distance total of the activities
whose `day_of_week` equals that day (0 for absent keys). -/
def analyze_weekly_patterns (activities : List Activity) : List DayStat :=
  days_order.map (fun d =>
    let grp := activities.filter (fun a => a.day_of_week == d)
    let count := grp.length
    let total := qsum (grp.map Activity.distance_km)
    { day := d
      count := count
      total_distance := total
      avg_distance := if 0 < count then qdiv total (mkRat count 1) else 0 })

/-! Lemmas

First, the `q*` operations coincide with the field operations of `ℚ`.
-/

theorem qadd_eq (a b : ℚ) : qadd a b = a + b := by
  have ha : ((a.den : ℚ)) ≠ 0 := Nat.cast_ne_zero.mpr a.den_nz
  have hb : ((b.den : ℚ)) ≠ 0 := Nat.cast_ne_zero.mpr b.den_nz
  rw [qadd, Rat.mkRat_eq_div]
  push_cast
  rw [show a + b = (a.num : ℚ) / a.den + (b.num : ℚ) / b.den by
    rw [Rat.num_div_den, Rat.num_div_den]]
  field_simp

theorem qmul_eq (a b : ℚ) : qmul a b = a * b := by
  have ha : ((a.den : ℚ)) ≠ 0 := Nat.cast_ne_zero.mpr a.den_nz
  have hb : ((b.den : ℚ)) ≠ 0 := Nat.cast_ne_zero.mpr b.den_nz
  rw [qmul, Rat.mkRat_eq_div]
  push_cast
  rw [show a * b = ((a.num : ℚ) / a.den) * ((b.num : ℚ) / b.den) by
    rw [Rat.num_div_den, Rat.num_div_den]]
  field_simp

theorem qinv_eq (b : ℚ) : qinv b = b⁻¹ := by
  rcases lt_trichotomy b.num 0 with h | h | h
  · rw [qinv, if_pos h, Rat.mkRat_eq_div, Rat.inv_def', Rat.divInt_eq_div]
    push_cast [Int.cast_natAbs]
    rw [abs_of_neg (show ((b.num : ℚ)) < 0 by exact_mod_cast h)]
    rw [neg_div_neg_eq]
  · have hb : b = 0 := by
      rw [← Rat.num_div_den b, h]
      simp
    subst hb
    rw [inv_zero]
    decide
  · rw [qinv, if_neg (by omega), Rat.mkRat_eq_div, Rat.inv_def', Rat.divInt_eq_div]
    push_cast [Int.cast_natAbs]
    rw [abs_of_pos (show (0 : ℚ) < (b.num : ℚ) by exact_mod_cast h)]

theorem qdiv_eq (a b : ℚ) : qdiv a b = a / b := by
  rw [qdiv, qmul_eq, qinv_eq, div_eq_mul_inv]

theorem qsum_eq (l : List ℚ) : qsum l = l.sum := by
  have key : ∀ (l : List ℚ) (acc : ℚ), l.foldl qadd acc = acc + l.sum := by
    intro l
    induction l with
    | nil => intro acc; simp
    | cons x xs ih =>
      intro acc
      rw [List.foldl_cons, ih, qadd_eq, List.sum_cons]
      ring
  rw [qsum, key, zero_add]

theorem mkRat_den_one (n : Int) : mkRat n 1 = (n : ℚ) := by
  rw [Rat.mkRat_eq_div]
  norm_num

theorem mkRat_nat (n : Nat) : mkRat (n : Int) 1 = (n : ℚ) := by
  rw [mkRat_den_one]
  norm_num

/-! Concrete sanity checks of the embedded parsers. -/

theorem parse_datetime_sanity :
    parse_datetime "01 Jan 2024, 12:00:00" = some ⟨2024, 1, 1, 12, 0, 0⟩ ∧
    parse_datetime "29 Feb 2024, 23:59:59" = some ⟨2024, 2, 29, 23, 59, 59⟩ ∧
    parse_datetime "29 Feb 2023, 00:00:00" = none ∧
    parse_datetime "31 Feb 2024, 12:00:00" = none ∧
    parse_datetime "01 Jan 2024" = none ∧
    day_of_week_name ⟨2024, 1, 1, 12, 0, 0⟩ = "Monday" ∧
    day_of_week_name ⟨2025, 6, 15, 0, 0, 0⟩ = "Sunday" :=
  ⟨by decide, by decide, by decide, by decide, by decide, by decide, by decide⟩

theorem embedded_pipeline_sanity :
    convert_to_number "1e2" = 100 ∧
    convert_to_number "2.7778" = mkRat 27778 10000 ∧
    (process_single_row sampleRow).map Activity.pace_min_per_km = some 5 :=
  ⟨by decide, by decide, by decide⟩

/-! Order statistics: bounds for `maxOr0`, `minOr0`, `meanOr0`,
`medianOr0` over a nonempty list. -/

theorem init_le_foldl_max (ys : List ℚ) : ∀ y : ℚ, y ≤ ys.foldl max y := by
  induction ys with
  | nil => intro y; exact le_refl y
  | cons z zs ih =>
    intro y
    rw [List.foldl_cons]
    exact (le_max_left y z).trans (ih (max y z))

theorem foldl_min_le_init (ys : List ℚ) : ∀ y : ℚ, ys.foldl min y ≤ y := by
  induction ys with
  | nil => intro y; exact le_refl y
  | cons z zs ih =>
    intro y
    rw [List.foldl_cons]
    exact (ih (min y z)).trans (min_le_left y z)

theorem le_foldl_max (ys : List ℚ) :
    ∀ y x : ℚ, (x = y ∨ x ∈ ys) → x ≤ ys.foldl max y := by
  induction ys with
  | nil =>
    intro y x hx
    rcases hx with rfl | h
    · exact le_refl x
    · cases h
  | cons z zs ih =>
    intro y x hx
    rw [List.foldl_cons]
    rcases hx with rfl | hz
    · exact (le_max_left x z).trans (init_le_foldl_max zs (max x z))
    · rcases List.mem_cons.mp hz with rfl | hzs
      · exact (le_max_right y x).trans (init_le_foldl_max zs (max y x))
      · exact ih (max y z) x (Or.inr hzs)

theorem foldl_min_le (ys : List ℚ) :
    ∀ y x : ℚ, (x = y ∨ x ∈ ys) → ys.foldl min y ≤ x := by
  induction ys with
  | nil =>
    intro y x hx
    rcases hx with rfl | h
    · exact le_refl x
    · cases h
  | cons z zs ih =>
    intro y x hx
    rw [List.foldl_cons]
    rcases hx with rfl | hz
    · exact (foldl_min_le_init zs (min x z)).trans (min_le_left x z)
    · rcases List.mem_cons.mp hz with rfl | hzs
      · exact (foldl_min_le_init zs (min y x)).trans (min_le_right y x)
      · exact ih (min y z) x (Or.inr hzs)

theorem le_maxOr0 (l : List ℚ) (x : ℚ) (hx : x ∈ l) : x ≤ maxOr0 l := by
  cases l with
  | nil => cases hx
  | cons y ys =>
    rw [maxOr0]
    rcases List.mem_cons.mp hx with rfl | h
    · exact le_foldl_max ys x x (Or.inl rfl)
    · exact le_foldl_max ys y x (Or.inr h)

theorem minOr0_le (l : List ℚ) (x : ℚ) (hx : x ∈ l) : minOr0 l ≤ x := by
  cases l with
  | nil => cases hx
  | cons y ys =>
    rw [minOr0]
    rcases List.mem_cons.mp hx with rfl | h
    · exact foldl_min_le ys x x (Or.inl rfl)
    · exact foldl_min_le ys y x (Or.inr h)

theorem meanOr0_le_of_bound (l : List ℚ) (b : ℚ) (hne : l ≠ [])
    (hb : ∀ x ∈ l, x ≤ b) : meanOr0 l ≤ b := by
  have hlen : 0 < (l.length : ℚ) := by
    have := List.length_pos.mpr hne
    exact_mod_cast this
  rw [meanOr0, if_neg (by simpa [List.isEmpty_iff] using hne), qdiv_eq, qsum_eq, mkRat_nat]
  rw [div_le_iff₀ hlen]
  calc l.sum ≤ l.length • b := List.sum_le_card_nsmul l b hb
    _ = b * l.length := by rw [nsmul_eq_mul]; ring

theorem le_meanOr0_of_bound (l : List ℚ) (b : ℚ) (hne : l ≠ [])
    (hb : ∀ x ∈ l, b ≤ x) : b ≤ meanOr0 l := by
  have hlen : 0 < (l.length : ℚ) := by
    have := List.length_pos.mpr hne
    exact_mod_cast this
  rw [meanOr0, if_neg (by simpa [List.isEmpty_iff] using hne), qdiv_eq, qsum_eq, mkRat_nat]
  rw [le_div_iff₀ hlen]
  calc b * l.length = l.length • b := by rw [nsmul_eq_mul]; ring
    _ ≤ l.sum := List.card_nsmul_le_sum l b hb

theorem mem_insertSorted (x y : ℚ) (l : List ℚ) :
    y ∈ insertSorted x l ↔ y = x ∨ y ∈ l := by
  induction l with
  | nil => simp [insertSorted]
  | cons z zs ih =>
    rw [insertSorted]
    split
    · simp [List.mem_cons]
    · simp only [List.mem_cons, ih]
      tauto

theorem length_insertSorted (x : ℚ) (l : List ℚ) :
    (insertSorted x l).length = l.length + 1 := by
  induction l with
  | nil => rfl
  | cons z zs ih =>
    rw [insertSorted]
    split
    · simp
    · simp [ih]

theorem mem_sortQ (l : List ℚ) (x : ℚ) : x ∈ sortQ l ↔ x ∈ l := by
  induction l with
  | nil => simp [sortQ]
  | cons y ys ih =>
    rw [sortQ, mem_insertSorted]
    simp [ih]

theorem length_sortQ (l : List ℚ) : (sortQ l).length = l.length := by
  induction l with
  | nil => rfl
  | cons y ys ih =>
    rw [sortQ, length_insertSorted, ih]
    rfl

theorem pymedian_mem_bounds (l : List ℚ) (hne : l ≠ [])
    (lo hi : ℚ) (hlo : ∀ x ∈ l, lo ≤ x) (hhi : ∀ x ∈ l, x ≤ hi) :
    lo ≤ pymedian l ∧ pymedian l ≤ hi := by
  have hlen : 0 < l.length := List.length_pos.mpr hne
  have hs : (sortQ l).length = l.length := length_sortQ l
  have hmem : ∀ i, i < l.length → (sortQ l).getD i 0 ∈ l := by
    intro i hi2
    have hi3 : i < (sortQ l).length := by omega
    rw [List.getD_eq_getElem _ _ hi3]
    exact (mem_sortQ l _).mp (List.getElem_mem hi3)
  rw [pymedian]
  split
  · exact ⟨hlo _ (hmem _ (by omega)), hhi _ (hmem _ (by omega))⟩
  · rename_i hodd
    have h2 : 2 ≤ l.length := by omega
    have ha := hmem (l.length / 2 - 1) (by omega)
    have hb := hmem (l.length / 2) (by omega)
    rw [qdiv_eq, qadd_eq, mkRat_den_one]
    constructor
    · have h3 := hlo _ ha
      have h4 := hlo _ hb
      push_cast
      linarith
    · have h3 := hhi _ ha
      have h4 := hhi _ hb
      push_cast
      linarith

theorem medianOr0_mem_bounds (l : List ℚ) (hne : l ≠ [])
    (lo hi : ℚ) (hlo : ∀ x ∈ l, lo ≤ x) (hhi : ∀ x ∈ l, x ≤ hi) :
    lo ≤ medianOr0 l ∧ medianOr0 l ≤ hi := by
  rw [medianOr0, if_neg (by simpa [List.isEmpty_iff] using hne)]
  exact pymedian_mem_bounds l hne lo hi hlo hhi

/-! The categorizer's three buckets are the evident filters. -/

theorem separate_fst_eq_filter (acts : List Activity) :
    (separate_running_and_cycling acts).1 = acts.filter (fun a => isRunType a) := by
  induction acts with
  | nil => rfl
  | cons a rest ih =>
    rw [separate_running_and_cycling]
    by_cases hr : isRunType a
    · simp [hr, List.filter_cons, ih]
    · by_cases hc : isCycleType a
      · simp [hr, hc, List.filter_cons, ih]
      · simp [hr, hc, List.filter_cons, ih]

theorem separate_snd_eq_filter (acts : List Activity) :
    (separate_running_and_cycling acts).2.1
      = acts.filter (fun a => !isRunType a && isCycleType a) := by
  induction acts with
  | nil => rfl
  | cons a rest ih =>
    rw [separate_running_and_cycling]
    by_cases hr : isRunType a
    · simp [hr, List.filter_cons, ih]
    · by_cases hc : isCycleType a
      · simp [hr, hc, List.filter_cons, ih]
      · simp [hr, hc, List.filter_cons, ih]

theorem separate_trd_eq_filter (acts : List Activity) :
    (separate_running_and_cycling acts).2.2
      = acts.filter (fun a => !isRunType a && !isCycleType a) := by
  induction acts with
  | nil => rfl
  | cons a rest ih =>
    rw [separate_running_and_cycling]
    by_cases hr : isRunType a
    · simp [hr, List.filter_cons, ih]
    · by_cases hc : isCycleType a
      · simp [hr, hc, List.filter_cons, ih]
      · simp [hr, hc, List.filter_cons, ih]

theorem separate_length_sum (acts : List Activity) :
    (separate_running_and_cycling acts).1.length
      + (separate_running_and_cycling acts).2.1.length
      + (separate_running_and_cycling acts).2.2.length = acts.length := by
  induction acts with
  | nil => rfl
  | cons a rest ih =>
    rcases hsep : separate_running_and_cycling rest with ⟨r, c, o⟩
    rw [hsep] at ih
    dsimp only at ih
    rw [separate_running_and_cycling, hsep]
    by_cases hr : isRunType a
    · simp only [hr, if_true, List.length_cons]
      omega
    · by_cases hc : isCycleType a
      · simp only [hr, hc, if_true, if_false, Bool.false_eq_true, List.length_cons]
        omega
      · simp only [hr, hc, if_false, Bool.false_eq_true, List.length_cons]
        omega

/-! Claim theorems -/

/-- C7: `convert_to_number` trims its input and never fails: empty or
unparsable text yields 0 and parsable numerals yield their value; in
particular `""` gives 0, `"abc"` gives 0, `"  12.5 "` gives 12.5 and
`"-3"` gives -3. -/
theorem coerce_number_lenient :
    convert_to_number "" = 0 ∧ convert_to_number "abc" = 0 ∧
    convert_to_number "  12.5 " = 12.5 ∧ convert_to_number "-3" = -3 ∧
    (∀ s : String, parseFloat (pyStrip s) = none → convert_to_number s = 0) := by
  refine ⟨by decide, by decide, ?_, by decide, ?_⟩
  · have h : convert_to_number "  12.5 " = mkRat 25 2 := by decide
    rw [h, Rat.mkRat_eq_div]
    norm_num
  · intro s h
    rw [convert_to_number, h]
    split <;> rfl

/-- C7 witness: the unparsable-text case at the concrete input `"abc"`. -/
theorem coerce_number_lenient_witness :
    parseFloat (pyStrip "abc") = none ∧ convert_to_number "abc" = 0 :=
  ⟨by decide, coerce_number_lenient.2.2.2.2 "abc" (by decide)⟩

/-- C6: `separate_running_and_cycling` classifies each activity by its
lower-cased type label — containing `"run"` gives Running; else containing
one of `"ride"`, `"cycling"`, `"bike"` gives Cycling; else Other — with
the first matching rule winning, and the three buckets form an exhaustive,
disjoint, order-preserving partition of the input. -/
theorem separate_running_and_cycling_partition (acts : List Activity) :
    (separate_running_and_cycling acts).1 = acts.filter (fun a => isRunType a) ∧
    (separate_running_and_cycling acts).2.1
      = acts.filter (fun a => !isRunType a && isCycleType a) ∧
    (separate_running_and_cycling acts).2.2
      = acts.filter (fun a => !isRunType a && !isCycleType a) ∧
    (separate_running_and_cycling acts).1.length
      + (separate_running_and_cycling acts).2.1.length
      + (separate_running_and_cycling acts).2.2.length = acts.length :=
  ⟨separate_fst_eq_filter acts, separate_snd_eq_filter acts,
   separate_trd_eq_filter acts, separate_length_sum acts⟩

/-- C5 counterexample: a permission failure while opening the source is
not caught by `read_csv_file` — it propagates instead of producing the
empty collection, so "for every failure mode" fails. -/
theorem read_csv_file_permission_failure_propagates :
    read_csv_file (Except.error ReadErr.permissionDenied)
      = Except.error ReadErr.permissionDenied := rfl

/-- C5 amended: `read_csv_file` returns an empty collection (after a
printed diagnostic) only for the file-not-found failure, which is the one
failure mode its handler catches; a readable source is processed row by
row, and every other open/read failure propagates to the caller. -/
theorem read_csv_file_error_policy :
    read_csv_file (Except.error ReadErr.fileNotFound) = Except.ok [] ∧
    (∀ rows : List Row, read_csv_file (Except.ok rows) = Except.ok (processRows rows)) ∧
    (∀ e : ReadErr, e ≠ ReadErr.fileNotFound →
      read_csv_file (Except.error e) = Except.error e) := by
  refine ⟨rfl, fun rows => rfl, ?_⟩
  intro e he
  cases e
  · exact absurd rfl he
  · rfl
  · rfl
  · rfl

/-- C5 witness: the propagation branch at the concrete decode failure. -/
theorem read_csv_file_error_policy_witness :
    read_csv_file (Except.error ReadErr.decodeFailure)
      = Except.error ReadErr.decodeFailure :=
  read_csv_file_error_policy.2.2 ReadErr.decodeFailure (by intro h; cases h)

/-- C1 counterexample: `calculate_advanced_stats` on the empty collection
returns the empty dictionary `{}` (modelled `none`) — an absent stats
object, not an object whose numeric fields are all 0. -/
theorem calculate_advanced_stats_empty_returns_empty_object :
    calculate_advanced_stats [] = none := rfl

/-- C1 amended: on an empty collection `calculate_advanced_stats` prints
a "No ... activities found!" message and returns the empty dictionary
(not a zero-filled stats object); on a non-empty collection every
statistic computed over an empty filtered subset is 0. -/
theorem stats_empty_subsets_default_zero :
    calculate_advanced_stats [] = none ∧
    ∀ (acts : List Activity) (s : SummaryStats),
      calculate_advanced_stats acts = some s →
      ((acts.filter (fun a => 0 < a.distance_km) = [] →
          s.avg_distance = 0 ∧ s.median_distance = 0 ∧
          s.max_distance = 0 ∧ s.min_distance = 0) ∧
       (acts.filter (fun a => 0 < a.avg_speed_kmh) = [] → s.avg_speed = 0) ∧
       (acts.filter (fun a => 0 < a.max_speed_kmh) = [] → s.max_speed = 0) ∧
       (acts.filter (fun a => 0 < a.max_heart_rate) = [] → s.avg_max_hr = 0) ∧
       (acts.filter (fun a => 0 < a.pace_min_per_km) = [] →
          s.avg_pace = 0 ∧ s.best_pace = 0) ∧
       (acts.filter (fun a => 0 < a.max_grade) = [] →
          s.avg_max_grade = 0 ∧ s.steepest_grade = 0) ∧
       (acts.filter (fun a => a.avg_grade ≠ 0) = [] → s.avg_grade = 0)) := by
  refine ⟨rfl, ?_⟩
  intro acts s h
  have hs : s = advanced_stats_of acts := by
    rw [calculate_advanced_stats] at h
    split at h
    · cases h
    · exact (Option.some_inj.mp h).symm
  subst hs
  refine ⟨?_, ?_, ?_, ?_, ?_, ?_, ?_⟩ <;> intro hfil <;>
    dsimp only [advanced_stats_of] <;> rw [hfil] <;>
    simp [meanOr0, medianOr0, maxOr0, minOr0]

/-- C1 witness: over the one-activity collection with no heart-rate and
no pace data, the heart-rate and pace averages are 0. -/
theorem stats_empty_subsets_default_zero_witness :
    (advanced_stats_of [plainActivity]).avg_max_hr = 0 ∧
    (advanced_stats_of [plainActivity]).avg_pace = 0 := by
  have h := stats_empty_subsets_default_zero.2 [plainActivity]
    (advanced_stats_of [plainActivity]) (by decide)
  exact ⟨h.2.2.2.1 (by decide), (h.2.2.2.2.1 (by decide)).1⟩

/-- C9: `analyze_weekly_patterns` always produces exactly 7 per-weekday
entries in Monday-through-Sunday order, and the average-distance entry of
a weekday with 0 activities is 0. -/
theorem weekly_patterns_shape (acts : List Activity) :
    (analyze_weekly_patterns acts).map DayStat.day = days_order ∧
    (analyze_weekly_patterns acts).length = 7 ∧
    ∀ e ∈ analyze_weekly_patterns acts, e.count = 0 → e.avg_distance = 0 := by
  refine ⟨?_, ?_, ?_⟩
  · rw [analyze_weekly_patterns, List.map_map]
    exact List.map_id'' (fun _ => rfl) days_order
  · rw [analyze_weekly_patterns, List.length_map]
    rfl
  · intro e he h0
    rw [analyze_weekly_patterns, List.mem_map] at he
    obtain ⟨d, _, rfl⟩ := he
    simp only at h0 ⊢
    rw [if_neg]
    omega

/-- C9 witness: at a one-activity Monday collection, the table has 7
entries and Tuesday's average distance is 0. -/
theorem weekly_patterns_shape_witness :
    (analyze_weekly_patterns [plainActivity]).length = 7 ∧
    ((analyze_weekly_patterns [plainActivity]).getD 1 ⟨"", 0, 0, 0⟩).avg_distance = 0 := by
  refine ⟨(weekly_patterns_shape [plainActivity]).2.1, ?_⟩
  exact (weekly_patterns_shape [plainActivity]).2.2 _ (by decide) (by decide)

/-! Inversion of the normalizer: an accepted row determines a parsed
timestamp and the built record, with the distance guard passed. -/

theorem process_single_row_some (row : Row) (a : Activity)
    (h : process_single_row row = some a) :
    ∃ d : PyDateTime,
      parse_datetime (pyStripQuotes (pyStrip (rowGet row "Activity Date" ""))) = some d ∧
      a = build_activity row d ∧ ¬ (build_activity row d).distance_km ≤ 0 := by
  dsimp only [process_single_row] at h
  split at h
  · cases h
  · split at h
    · cases h
    · rename_i d hd
      split at h
      · cases h
      · rename_i hdist
        exact ⟨d, hd, (Option.some_inj.mp h).symm, hdist⟩

/-- C3: every Activity in the loader's output has `distance_km > 0` and a
successfully parsed timestamp, from which its day-of-week name and hour
are derived; rows with non-positive distance or a missing/unparsable date
never yield an Activity. -/
theorem kept_rows_have_distance_and_timestamp (row : Row) (a : Activity)
    (h : process_single_row row = some a) :
    0 < a.distance_km ∧
    parse_datetime (pyStripQuotes (pyStrip (rowGet row "Activity Date" ""))) = some a.date ∧
    a.day_of_week = day_of_week_name a.date ∧
    a.hour = a.date.hour := by
  obtain ⟨d, hd, rfl, hdist⟩ := process_single_row_some row a h
  exact ⟨not_le.mp hdist, hd, rfl, rfl⟩

/-- C3 witness: the sample row is accepted with positive distance and its
parsed timestamp. -/
theorem kept_rows_have_distance_and_timestamp_witness :
    process_single_row sampleRow
      = some (build_activity sampleRow ⟨2024, 1, 1, 12, 0, 0⟩) ∧
    0 < (build_activity sampleRow ⟨2024, 1, 1, 12, 0, 0⟩).distance_km := by
  have h : process_single_row sampleRow
      = some (build_activity sampleRow ⟨2024, 1, 1, 12, 0, 0⟩) := by decide
  exact ⟨h, (kept_rows_have_distance_and_timestamp sampleRow _ h).1⟩

/-- C4: the normalizer is total over rows — each row independently yields
either an accepted Activity or a rejection, a rejected row contributes
nothing while the remaining rows are still processed, and a row is
rejected exactly when a diagnostic naming it is printed. -/
theorem process_rows_isolated (r : Row) (rest : List Row) :
    processRows (r :: rest) = (process_single_row r).toList ++ processRows rest ∧
    (process_single_row r = none ↔ process_single_row_diagnostics r ≠ []) := by
  constructor
  · rw [processRows]
    cases h : process_single_row r <;> simp [h]
  · dsimp only [process_single_row, process_single_row_diagnostics]
    split
    · simp
    · split
      · simp
      · split
        · simp
        · simp

/-- C4 witness: a row with an empty date is rejected with a diagnostic
and does not disturb the processing of the next row. -/
theorem process_rows_isolated_witness :
    processRows [badDateRow, sampleRow] = processRows [sampleRow] ∧
    process_single_row_diagnostics badDateRow ≠ [] := by
  have h := process_rows_isolated badDateRow [sampleRow]
  have hnone : process_single_row badDateRow = none := by decide
  exact ⟨by rw [h.1, hnone]; rfl, h.2.mp hnone⟩

/-- C8: an accepted activity's pace is `(moving-time / distance) / 60`
when both distance and moving time are positive, and `0` otherwise. -/
theorem pace_formula (row : Row) (a : Activity)
    (h : process_single_row row = some a) :
    a.pace_min_per_km =
      if 0 < a.distance_km ∧ 0 < a.time_seconds
      then a.time_seconds / a.distance_km / 60 else 0 := by
  obtain ⟨d, hd, rfl, hdist⟩ := process_single_row_some row a h
  dsimp only [build_activity]
  split
  · rw [qdiv_eq, qdiv_eq, mkRat_den_one]
    norm_num
  · rfl

/-- C8 witness: the sample row (distance 10 km, moving time 3000 s) has
pace 5 min/km. -/
theorem pace_formula_witness :
    (build_activity sampleRow ⟨2024, 1, 1, 12, 0, 0⟩).pace_min_per_km = 5 := by
  have h : process_single_row sampleRow
      = some (build_activity sampleRow ⟨2024, 1, 1, 12, 0, 0⟩) := by decide
  rw [pace_formula sampleRow _ h, if_pos ⟨by decide, by decide⟩]
  have h1 : (build_activity sampleRow ⟨2024, 1, 1, 12, 0, 0⟩).time_seconds = 3000 := by decide
  have h2 : (build_activity sampleRow ⟨2024, 1, 1, 12, 0, 0⟩).distance_km = 10 := by decide
  rw [h1, h2]
  norm_num

/-- C2 counterexample: a kept activity can carry a negative numeric
field — a row with `Elevation Low` cell `"-5"` is accepted and stores
`elevation_low = -5`. -/
theorem kept_activity_negative_field :
    (process_single_row negElevationRow).map Activity.elevation_low = some (-5) ∧
    (process_single_row negElevationRow).isSome = true := by decide

/-- C2 amended: every numeric field of a kept Activity receives a value
(absence of a cell degrades to the 0 default, never to null), and the
guarded fields are sign-constrained — `distance_km > 0` and the derived
`avg_speed_kmh`, `max_speed_kmh` and `pace_min_per_km` are non-negative —
but directly coerced fields (elevations, grades, heart rate, times) may
be negative when the source cell holds a negative numeral. -/
theorem kept_activity_guarded_fields (row : Row) (a : Activity)
    (h : process_single_row row = some a) :
    0 < a.distance_km ∧ 0 ≤ a.avg_speed_kmh ∧ 0 ≤ a.max_speed_kmh ∧
    0 ≤ a.pace_min_per_km := by
  obtain ⟨d, hd, rfl, hdist⟩ := process_single_row_some row a h
  refine ⟨not_le.mp hdist, ?_, ?_, ?_⟩
  · dsimp only [build_activity]
    split
    · rename_i hpos
      rw [qmul_eq, Rat.mkRat_eq_div]
      positivity
    · exact le_refl 0
  · dsimp only [build_activity]
    split
    · rename_i hpos
      rw [qmul_eq, Rat.mkRat_eq_div]
      positivity
    · exact le_refl 0
  · dsimp only [build_activity]
    split
    · rename_i hpos
      rw [qdiv_eq, qdiv_eq, mkRat_den_one]
      obtain ⟨h1, h2⟩ := hpos
      positivity
    · exact le_refl 0

/-- C2 witness: the sample row's accepted activity satisfies the
sign constraints. -/
theorem kept_activity_guarded_fields_witness :
    0 < (build_activity sampleRow ⟨2024, 1, 1, 12, 0, 0⟩).distance_km ∧
    0 ≤ (build_activity sampleRow ⟨2024, 1, 1, 12, 0, 0⟩).pace_min_per_km := by
  have h : process_single_row sampleRow
      = some (build_activity sampleRow ⟨2024, 1, 1, 12, 0, 0⟩) := by decide
  have hall := kept_activity_guarded_fields sampleRow _ h
  exact ⟨hall.1, hall.2.2.2⟩

/-! Order-statistic comparisons for C10. -/

theorem minOr0_le_maxOr0 (l : List ℚ) : minOr0 l ≤ maxOr0 l := by
  cases l with
  | nil => exact le_refl 0
  | cons y ys =>
    exact (minOr0_le (y :: ys) y (List.mem_cons_self y ys)).trans
      (le_maxOr0 (y :: ys) y (List.mem_cons_self y ys))

theorem minOr0_le_medianOr0 (l : List ℚ) : minOr0 l ≤ medianOr0 l := by
  by_cases hne : l = []
  · subst hne
    exact le_refl 0
  · exact (medianOr0_mem_bounds l hne (minOr0 l) (maxOr0 l)
      (fun x hx => minOr0_le l x hx) (fun x hx => le_maxOr0 l x hx)).1

theorem medianOr0_le_maxOr0 (l : List ℚ) : medianOr0 l ≤ maxOr0 l := by
  by_cases hne : l = []
  · subst hne
    exact le_refl 0
  · exact (medianOr0_mem_bounds l hne (minOr0 l) (maxOr0 l)
      (fun x hx => minOr0_le l x hx) (fun x hx => le_maxOr0 l x hx)).2

theorem minOr0_le_meanOr0 (l : List ℚ) : minOr0 l ≤ meanOr0 l := by
  by_cases hne : l = []
  · subst hne
    exact le_refl 0
  · exact le_meanOr0_of_bound l (minOr0 l) hne (fun x hx => minOr0_le l x hx)

theorem meanOr0_le_maxOr0 (l : List ℚ) : meanOr0 l ≤ maxOr0 l := by
  by_cases hne : l = []
  · subst hne
    exact le_refl 0
  · exact meanOr0_le_of_bound l (maxOr0 l) hne (fun x hx => le_maxOr0 l x hx)

/-- C10: for every non-empty collection, the summary statistics are
internally consistent: `min_distance ≤ median_distance ≤ max_distance`,
`min_distance ≤ avg_distance ≤ max_distance`, and
`best_pace ≤ avg_pace`. -/
theorem stats_internal_consistency (acts : List Activity) (s : SummaryStats)
    (h : calculate_advanced_stats acts = some s) :
    s.min_distance ≤ s.median_distance ∧ s.median_distance ≤ s.max_distance ∧
    s.min_distance ≤ s.avg_distance ∧ s.avg_distance ≤ s.max_distance ∧
    s.best_pace ≤ s.avg_pace := by
  have hs : s = advanced_stats_of acts := by
    rw [calculate_advanced_stats] at h
    split at h
    · cases h
    · exact (Option.some_inj.mp h).symm
  subst hs
  dsimp only [advanced_stats_of]
  exact ⟨minOr0_le_medianOr0 _, medianOr0_le_maxOr0 _, minOr0_le_meanOr0 _,
    meanOr0_le_maxOr0 _, minOr0_le_meanOr0 _⟩

/-- C10 witness: the one-activity sample collection's statistics satisfy
the consistency inequalities. -/
theorem stats_internal_consistency_witness :
    (advanced_stats_of [plainActivity]).min_distance
      ≤ (advanced_stats_of [plainActivity]).median_distance ∧
    (advanced_stats_of [plainActivity]).best_pace
      ≤ (advanced_stats_of [plainActivity]).avg_pace := by
  have h := stats_internal_consistency [plainActivity]
    (advanced_stats_of [plainActivity]) (by decide)
  exact ⟨h.1, h.2.2.2.2⟩

end StravaViz
